import Mathlib

/-!
# Verification of the capstone-project document assessment system

Shallow embedding of the repository's analysis/assessment pipeline and of
the React frontend's rendering and state logic, together with theorems
settling the specification claims.

The assessment core (section segmenter, citation extractor, assessment
engine) is a backend service that is not part of this repository snapshot;
its definitions below are modelled from the specification, as marked in
their doc comments.  The frontend components (`AdvancedPdfProcessor`'s
citation renderer, `App`'s tab state, `AuthContext.login`) are embedded
directly from the JavaScript source.
-/

namespace Capstone

/-! ## Text utilities -/

/-- `charListStarts needle hay` is true when `needle` begins `hay`. -/
def charListStarts : List Char → List Char → Bool
  | [], _ => true
  | _ :: _, [] => false
  | a :: as, b :: bs => a == b && charListStarts as bs

/-- `charListHasSub needle hay` is true when `needle` occurs contiguously in `hay`. -/
def charListHasSub (needle : List Char) : List Char → Bool
  | [] => needle.isEmpty
  | c :: cs => charListStarts needle (c :: cs) || charListHasSub needle cs

/-- Substring test on strings. -/
def strContains (haystack needle : String) : Bool :=
  charListHasSub needle.toList haystack.toList

/-! ## Section model -/

/-- Canonical section names of the data model. -/
inductive SectionName
  | abstract
  | introduction
  | methodology
  | results
  | discussion
  | conclusion
  | mainBody
  deriving DecidableEq, Repr

/-- The fixed essential-section checklist
{abstract, introduction, methodology, results, discussion, conclusion}. -/
def essentialSections : List SectionName :=
  [.abstract, .introduction, .methodology, .results, .discussion, .conclusion]

/-- A section map: canonical name to extracted text; absent keys allowed. -/
abbrev SectionMap := List (SectionName × String)

/-- Look a section up by canonical name (first entry wins). -/
def getSection (m : SectionMap) (n : SectionName) : Option String :=
  m.lookup n

/-- A section counts as present when it is in the map with nonempty text
(a heading with no body is treated as empty, not as an error). -/
def sectionPresent (m : SectionMap) (n : SectionName) : Bool :=
  match getSection m n with
  | some t => t != ""
  | none => false

/-- The section map is entirely empty: no entry carries any text. -/
def sectionMapEmpty (m : SectionMap) : Bool :=
  m.all (fun p => p.2 == "")

/-! ## Missing-content detection -/

/-- Importance tier driving the deduction magnitude (15/10/5 points). -/
inductive Importance
  | critical
  | important
  | beneficial
  deriving DecidableEq, Repr

/-- A categorized missing-content diagnostic. -/
structure MissingContentItem where
  category : String
  topic : String
  importance : Importance
  description : String
  suggestion : String
  relatedSections : List String
  deriving DecidableEq, Repr

/-- One entry of the expected-topic rule table: for a target section, a list
of expected topic phrases; if none occurs in the section's text, the entry's
missing-content item is generated. -/
structure TopicRule where
  category : String
  topic : String
  importance : Importance
  description : String
  suggestion : String
  relatedSections : List String
  targetSection : SectionName
  phrases : List String
  deriving DecidableEq, Repr

/-- A rule is satisfied when the target section is present and its text
contains at least one expected topic phrase. -/
def ruleSatisfied (m : SectionMap) (r : TopicRule) : Bool :=
  match getSection m r.targetSection with
  | some t => r.phrases.any (fun p => strContains t p)
  | none => false

/-- The missing-content item generated by an unsatisfied rule. -/
def ruleItem (r : TopicRule) : MissingContentItem :=
  { category := r.category
    topic := r.topic
    importance := r.importance
    description := r.description
    suggestion := r.suggestion
    relatedSections := r.relatedSections }

/-- Modelled from the spec: missing-content detection of the Assessment
Engine — each unsatisfied expected-topic rule generates one item. -/
def detectMissing (table : List TopicRule) (m : SectionMap) : List MissingContentItem :=
  (table.filter (fun r => !ruleSatisfied m r)).map ruleItem

/-- The rules of a table carrying the Critical tier. -/
def criticalRules (table : List TopicRule) : List TopicRule :=
  table.filter (fun r => r.importance == Importance.critical)

/-- Number of items of a given importance tier. -/
def countTier (items : List MissingContentItem) (t : Importance) : Nat :=
  (items.filter (fun i => i.importance == t)).length

/-! ## Scoring -/

/-- Deduction magnitude by tier: Critical 15, Important 10, Beneficial 5. -/
def penalty : Importance → Nat
  | .critical => 15
  | .important => 10
  | .beneficial => 5

/-- Total deduction accumulated over the detected missing-content items. -/
def missingDeduction (items : List MissingContentItem) : Nat :=
  (items.map (fun i => penalty i.importance)).sum

/-- Modelled from the spec: missing-content sub-score before weighting,
`max(0, 100 - deductions)`. -/
def missingContentRaw (items : List MissingContentItem) : ℚ :=
  max 0 (100 - (missingDeduction items : ℚ))

/-- Modelled from the spec: citation-adequacy sub-score before weighting,
`min(citation_count / 10, 1.0) × 100` with expected minimum 10. -/
def citationRaw (citationCount : Nat) : ℚ :=
  min ((citationCount : ℚ) / 10) 1 * 100

/-- Modelled from the spec: structural sub-score before weighting — the
fraction of the essential-section checklist present, scaled to 0–100. -/
def structuralRaw (m : SectionMap) : ℚ :=
  ((essentialSections.filter (fun n => sectionPresent m n)).length : ℚ) / 6 * 100

/-- Key content markers used by the per-section quality heuristic. -/
def qualityKeyMarkers : List String :=
  ["method", "result", "data", "analysis", "study"]

/-- Modelled from the spec: per-present-section heuristic quality score,
built from minimum length and key-marker presence, in 0–100. -/
def sectionQuality (t : String) : Nat :=
  (if 200 ≤ t.length then 50 else 0) +
    (if qualityKeyMarkers.any (fun p => strContains t p) then 50 else 0)

/-- The texts of the present essential sections, in checklist order. -/
def presentSectionTexts (m : SectionMap) : List String :=
  essentialSections.filterMap (fun n =>
    match getSection m n with
    | some t => if t != "" then some t else none
    | none => none)

/-- Modelled from the spec: content-quality sub-score before weighting —
the per-present-section quality scores averaged (0 when none present). -/
def contentQualityRaw (m : SectionMap) : ℚ :=
  let ts := presentSectionTexts m
  if ts.isEmpty then 0
  else ((ts.map sectionQuality).sum : ℚ) / (ts.length : ℚ)

/-- Weight of the structural sub-score (25%). -/
def wStruct : ℚ := 1 / 4

/-- Weight of the content-quality sub-score (25%). -/
def wQuality : ℚ := 1 / 4

/-- Weight of the citation-adequacy sub-score (15%). -/
def wCite : ℚ := 3 / 20

/-- Weight of the missing-content sub-score (35%). -/
def wMissing : ℚ := 7 / 20

/-! ## Assessment engine -/

/-- The four weighted sub-scores of the score breakdown. -/
structure ScoreBreakdown where
  structuralWeighted : ℚ
  contentQualityWeighted : ℚ
  citationWeighted : ℚ
  missingContentWeighted : ℚ
  deriving DecidableEq, Repr

/-- Operating mode of the Assessment Engine. -/
inductive Mode
  | quick
  | comprehensive
  deriving DecidableEq, Repr

/-- Citation type tag. -/
inductive CitationType
  | authorYear
  | numbered
  | footnote
  deriving DecidableEq, Repr

/-- A citation record of the data model. -/
structure Citation where
  text : String
  citationType : CitationType
  authors : List String
  year : Option String
  referenceNumbers : List Nat
  resolvedReferences : List (Option String)
  position : Nat
  deriving DecidableEq, Repr

/-- The merged analysis record handed to the Assessment Engine. -/
structure AnalysisRecord where
  sections : SectionMap
  citations : List Citation
  researchField : String
  paperTitle : String
  deriving DecidableEq, Repr

/-- The completeness report produced by the Assessment Engine. -/
structure AssessmentReport where
  paperTitle : String
  researchField : String
  overallScore : ℚ
  missingContent : List MissingContentItem
  strengths : List String
  weaknesses : List String
  recommendations : List String
  scoreBreakdown : ScoreBreakdown
  mode : Mode
  deriving DecidableEq, Repr

/-- Modelled from the spec: the single Critical item flagging extraction
failure, returned when the section map is entirely empty. -/
def extractionFailureItem : MissingContentItem :=
  { category := "Extraction"
    topic := "Section Extraction"
    importance := .critical
    description := "No usable section text could be extracted from the document."
    suggestion := "Verify the uploaded document contains extractable text."
    relatedSections := [] }

/-- Display label of a canonical section name. -/
def sectionLabel : SectionName → String
  | .abstract => "abstract"
  | .introduction => "introduction"
  | .methodology => "methodology"
  | .results => "results"
  | .discussion => "discussion"
  | .conclusion => "conclusion"
  | .mainBody => "main_body"

/-- Modelled from the spec: strengths derived in comprehensive mode —
present essential sections whose quality is above a threshold. -/
def strengthsOf (m : SectionMap) : List String :=
  essentialSections.filterMap (fun n =>
    match getSection m n with
    | some t =>
        if t != "" && decide (70 ≤ sectionQuality t) then
          some ("Strong " ++ sectionLabel n ++ " section")
        else none
    | none => none)

/-- Modelled from the spec: weaknesses derived in comprehensive mode —
present essential sections whose quality is below a threshold. -/
def weaknessesOf (m : SectionMap) : List String :=
  essentialSections.filterMap (fun n =>
    match getSection m n with
    | some t =>
        if t != "" && decide (sectionQuality t < 40) then
          some ("Limited " ++ sectionLabel n ++ " section")
        else none
    | none => none)

/-- Modelled from the spec: recommendations derived in comprehensive mode —
the missing-content suggestions, deduplicated. -/
def recommendationsOf (items : List MissingContentItem) : List String :=
  (items.map (fun i => i.suggestion)).eraseDups

/-- Modelled from the spec: the Assessment Engine.  If the section map is
entirely empty it returns overall score 0 with the single Critical
extraction-failure item.  Quick mode computes only the structural sub-score
and Critical-tier missing-content detection; comprehensive mode computes
all four weighted sub-scores and the qualitative derivations.  The overall
score is the sum of the weighted sub-scores, with no renormalization. -/
def assess (table : List TopicRule) (mode : Mode) (a : AnalysisRecord) : AssessmentReport :=
  if sectionMapEmpty a.sections then
    { paperTitle := a.paperTitle
      researchField := a.researchField
      overallScore := 0
      missingContent := [extractionFailureItem]
      strengths := []
      weaknesses := []
      recommendations := []
      scoreBreakdown := ⟨0, 0, 0, 0⟩
      mode := mode }
  else
    match mode with
    | .quick =>
        let items := detectMissing (criticalRules table) a.sections
        let sw := structuralRaw a.sections * wStruct
        let mw := missingContentRaw items * wMissing
        { paperTitle := a.paperTitle
          researchField := a.researchField
          overallScore := sw + 0 + 0 + mw
          missingContent := items
          strengths := []
          weaknesses := []
          recommendations := []
          scoreBreakdown := ⟨sw, 0, 0, mw⟩
          mode := .quick }
    | .comprehensive =>
        let items := detectMissing table a.sections
        let sw := structuralRaw a.sections * wStruct
        let qw := contentQualityRaw a.sections * wQuality
        let cw := citationRaw a.citations.length * wCite
        let mw := missingContentRaw items * wMissing
        { paperTitle := a.paperTitle
          researchField := a.researchField
          overallScore := sw + qw + cw + mw
          missingContent := items
          strengths := strengthsOf a.sections
          weaknesses := weaknessesOf a.sections
          recommendations := recommendationsOf items
          scoreBreakdown := ⟨sw, qw, cw, mw⟩
          mode := .comprehensive }

/-! ## Citation extractor

Modelled from the spec: three pattern families applied with priority
author_year > numbered > footnote at each position of a linear scan. -/

/-- Numeric value of a digit run. -/
def digitsVal (ds : List Char) : Nat :=
  ds.foldl (fun a c => a * 10 + (c.toNat - 48)) 0

/-- Split a leading digit run off a character list. -/
def takeDigits (cs : List Char) : Option (Nat × List Char) :=
  let ds := cs.takeWhile Char.isDigit
  if ds.isEmpty then none else some (digitsVal ds, cs.dropWhile Char.isDigit)

/-- Split a leading capitalized word (upper letter then lower letters). -/
def takeCapWord : List Char → Option (List Char × List Char)
  | [] => none
  | c :: cs =>
      if c.isUpper then some (c :: cs.takeWhile Char.isLower, cs.dropWhile Char.isLower)
      else none

/-- Match `(YYYY)` — an open paren, four digits, a close paren — returning
the year string and the remainder. -/
def matchYearParen : List Char → Option (String × List Char)
  | '(' :: d1 :: d2 :: d3 :: d4 :: ')' :: rest =>
      if d1.isDigit && d2.isDigit && d3.isDigit && d4.isDigit then
        some (String.mk [d1, d2, d3, d4], rest)
      else none
  | _ => none

/-- Modelled from the spec: author-year pattern family — `Name (YYYY)`,
`Name et al. (YYYY)`, `NameA and NameB (YYYY)`.  Returns the authors, the
year and the remainder after the matched span. -/
def matchAuthorYear (cs : List Char) : Option (List String × String × List Char) :=
  match takeCapWord cs with
  | none => none
  | some (w1, r1) =>
      if charListStarts " et al. ".toList r1 then
        match matchYearParen (r1.drop 8) with
        | some (y, rest) => some ([String.mk w1], y, rest)
        | none => none
      else if charListStarts " and ".toList r1 then
        match takeCapWord (r1.drop 5) with
        | none => none
        | some (w2, r2) =>
            match r2 with
            | ' ' :: r3 =>
                match matchYearParen r3 with
                | some (y, rest) => some ([String.mk w1, String.mk w2], y, rest)
                | none => none
            | _ => none
      else
        match r1 with
        | ' ' :: r2 =>
            match matchYearParen r2 with
            | some (y, rest) => some ([String.mk w1], y, rest)
            | none => none
        | _ => none

/-- Expand a numbered-citation range `a-b` to the individual integers. -/
def rangeExpand (a b : Nat) : List Nat :=
  (List.range (b + 1 - a)).map (a + ·)

/-- Parse the interior of a bracketed citation after `[`: digit groups and
`a-b` ranges separated by commas (spaces allowed), closed by `]`.  Returns
the expanded reference numbers and the remainder after `]`. -/
def parseNumGroups : Nat → List Char → Option (List Nat × List Char)
  | 0, _ => none
  | fuel + 1, cs =>
      let cs1 := cs.dropWhile (· == ' ')
      match takeDigits cs1 with
      | none => none
      | some (n, r1) =>
          let r2 := r1.dropWhile (· == ' ')
          match r2 with
          | ']' :: rest => some ([n], rest)
          | ',' :: rest =>
              match parseNumGroups fuel rest with
              | some (ns, rest2) => some (n :: ns, rest2)
              | none => none
          | '-' :: rest =>
              match takeDigits rest with
              | none => none
              | some (m, r3) =>
                  let r4 := r3.dropWhile (· == ' ')
                  match r4 with
                  | ']' :: rest2 => some (rangeExpand n m, rest2)
                  | ',' :: rest2 =>
                      match parseNumGroups fuel rest2 with
                      | some (ns, rest3) => some (rangeExpand n m ++ ns, rest3)
                      | none => none
                  | _ => none
          | _ => none

/-- Modelled from the spec: numbered pattern family — `[n]`, `[n, m, …]`,
`[n-m]` with ranges expanded to individual integers. -/
def matchNumbered (cs : List Char) : Option (List Nat × List Char) :=
  match cs with
  | '[' :: rest => parseNumGroups (rest.length + 1) rest
  | _ => none

/-- Modelled from the spec: footnote pattern family — a superscript-style
digit marker written `^n`. -/
def matchFootnoteMark (cs : List Char) : Option (Nat × List Char) :=
  match cs with
  | '^' :: rest => takeDigits rest
  | _ => none

/-- Resolve the reference numbers of a numbered citation against the
ordinal lines of a bibliography block; an unresolved number yields a
placeholder (`none`) entry rather than a failure. -/
def resolveRefs (bib : List String) (ns : List Nat) : List (Option String) :=
  ns.map (fun n => bib.get? (n - 1))

/-- One linear scan step: at each position try author-year first, then
numbered, then footnote (the overlap priority), emitting the matched
citation and continuing after its span, else advancing one character. -/
def scanCitations (bib : List String) : Nat → List Char → Nat → List Citation
  | 0, _, _ => []
  | _ + 1, [], _ => []
  | fuel + 1, c :: cs, pos =>
      let here := c :: cs
      match matchAuthorYear here with
      | some (authors, year, rest) =>
          let consumed := here.length - rest.length
          { text := String.mk (here.take consumed)
            citationType := .authorYear
            authors := authors
            year := some year
            referenceNumbers := []
            resolvedReferences := []
            position := pos } :: scanCitations bib fuel rest (pos + consumed)
      | none =>
          match matchNumbered here with
          | some (ns, rest) =>
              let consumed := here.length - rest.length
              { text := String.mk (here.take consumed)
                citationType := .numbered
                authors := []
                year := none
                referenceNumbers := ns
                resolvedReferences := resolveRefs bib ns
                position := pos } :: scanCitations bib fuel rest (pos + consumed)
          | none =>
              match matchFootnoteMark here with
              | some (_, rest) =>
                  let consumed := here.length - rest.length
                  { text := String.mk (here.take consumed)
                    citationType := .footnote
                    authors := []
                    year := none
                    referenceNumbers := []
                    resolvedReferences := []
                    position := pos } :: scanCitations bib fuel rest (pos + consumed)
              | none => scanCitations bib fuel cs (pos + 1)

/-- Modelled from the spec: the Citation Extractor — a pure linear scan of
the raw text, ordered by position, with an optional bibliography block for
resolving numbered citations. -/
def extractCitationsWithBib (bib : List String) (raw : String) : List Citation :=
  scanCitations bib (raw.toList.length + 1) raw.toList 0

/-- The Citation Extractor with no bibliography block supplied. -/
def extractCitations (raw : String) : List Citation :=
  extractCitationsWithBib [] raw

/-! ## Section segmenter -/

/-- The ordered catalogue of heading-recognition keywords per canonical
section. -/
def canonicalHeadings : List (SectionName × List String) :=
  [(.abstract, ["Abstract"]),
   (.introduction, ["Introduction"]),
   (.methodology, ["Methodology", "Methods"]),
   (.results, ["Results"]),
   (.discussion, ["Discussion"]),
   (.conclusion, ["Conclusion", "Conclusions"])]

/-- Strip an optional leading numbering such as `1. ` from a heading line. -/
def stripNumbering (s : String) : String :=
  String.mk (s.toList.dropWhile (fun c => c.isDigit || c == '.' || c == ' '))

/-- Modelled from the spec: heading recognition — the candidate line must
occupy its own line, be short, and (after stripping numbering) equal a
catalogue keyword in title case or all caps, with no trailing punctuation. -/
def headingOf (line : String) : Option SectionName :=
  let t := stripNumbering line.trim
  if line.trim.length ≤ 60 then
    (canonicalHeadings.find? (fun p =>
      p.2.any (fun h => t == h || t == h.toUpper))).map (fun p => p.1)
  else none

/-- Accumulate the current section's lines until the next recognized
heading; text before the first heading lands in the abstract bucket. -/
def segmentAux : List String → SectionName → List String → SectionMap
  | [], cur, acc => [(cur, String.intercalate "\n" acc.reverse)]
  | l :: ls, cur, acc =>
      match headingOf l with
      | some n => (cur, String.intercalate "\n" acc.reverse) :: segmentAux ls n []
      | none => segmentAux ls cur (l :: acc)

/-- Modelled from the spec: the Section Segmenter — a linear scan over the
lines of the raw text; text between a recognized heading and the next
belongs to the first heading's section, text before the first heading to an
implicit preamble/abstract bucket; never fails, unmatched sections are
simply absent. -/
def segmentSections (raw : String) : SectionMap :=
  (segmentAux (raw.splitOn "\n") .abstract []).filter (fun p => p.2 != "")

/-! ## Full analysis pipeline -/

/-- Modelled from the spec: the fixed expected-topic rule table for a given
research field — a base table of (section × topic phrases) entries with
tier, description, suggestion and related sections, extended with
field-specific entries. -/
def topicTableFor (field : String) : List TopicRule :=
  [{ category := "Methodology", topic := "Statistical Analysis",
     importance := .critical,
     description := "Missing detailed statistical analysis methods.",
     suggestion := "Add a section on the statistical tests used.",
     relatedSections := ["Methodology", "Results"],
     targetSection := .methodology,
     phrases := ["statistical", "analysis", "test"] },
   { category := "Discussion", topic := "Limitations",
     importance := .important,
     description := "Missing discussion of study limitations.",
     suggestion := "Include a limitations discussion.",
     relatedSections := ["Discussion"],
     targetSection := .discussion,
     phrases := ["limitation"] },
   { category := "Future Work", topic := "Research Directions",
     importance := .beneficial,
     description := "Missing directions for future work.",
     suggestion := "Outline open problems and future research directions.",
     relatedSections := ["Conclusion"],
     targetSection := .conclusion,
     phrases := ["future work", "future research"] }] ++
  (if field == "Computer Science" then
    [{ category := "Methodology", topic := "Reproducibility",
       importance := .critical,
       description := "Missing reproducibility details.",
       suggestion := "Describe code and data availability.",
       relatedSections := ["Methodology"],
       targetSection := .methodology,
       phrases := ["code", "dataset", "reproduc"] }]
   else [])

/-- Modelled from the spec: research-field inference over the raw text,
a fixed keyword heuristic. -/
def inferField (raw : String) : String :=
  if strContains raw "algorithm" || strContains raw "software" then "Computer Science"
  else "General"

/-- Modelled from the spec: build the merged analysis record from the raw
text — section map plus citation collection plus inferred field; the paper
title is the first line of the text. -/
def buildRecord (raw : String) : AnalysisRecord :=
  { sections := segmentSections raw
    citations := extractCitations raw
    researchField := inferField raw
    paperTitle := ((raw.splitOn "\n").headD "").trim }

/-- Modelled from the spec: the full analysis pipeline — raw text through
segmentation, extraction and assessment, every stage a pure function of the
text and the fixed read-only configuration. -/
def assessPipeline (mode : Mode) (raw : String) : AssessmentReport :=
  let record := buildRecord raw
  assess (topicTableFor record.researchField) mode record

/-! ## Frontend: citation renderer (`AdvancedPdfProcessor.renderCitations`)

Embedded from `renderCitations`: a numbered citation's reference list shows
`resolved_references?.[idx]` when that entry is a non-empty string and the
placeholder `Reference N (details not captured)` otherwise (JavaScript `||`
treats a missing entry, `null` and the empty string alike as falsy). -/

/-- The placeholder text shown for an uncaptured reference. -/
def referencePlaceholder (num : Nat) : String :=
  "Reference " ++ toString num ++ " (details not captured)"

/-- What the renderer displays for reference number `num` at index `idx` of
a numbered citation's resolved-reference list. -/
def renderResolvedRef (resolved : List (Option String)) (num : Nat) (idx : Nat) : String :=
  match resolved.get? idx with
  | some (some r) => if r == "" then referencePlaceholder num else r
  | some none => referencePlaceholder num
  | none => referencePlaceholder num

/-- The rendered reference lines of a citation: one line per reference
number, shown only for numbered citations with a nonempty number list. -/
def renderReferenceLines (c : Citation) : List String :=
  if c.citationType == .numbered && !c.referenceNumbers.isEmpty then
    c.referenceNumbers.enum.map (fun p => renderResolvedRef c.resolvedReferences p.2 p.1)
  else []

/-! ## Frontend: `App` tab state

Embedded from `App.js`: the `activeTab`/`user` state with the auth effect
(`user` null and tab not "basic" resets the tab), the tab buttons (advanced
and assessment disabled without a user), and the hero highlight clicks
(auth-gated targets only scroll to the login section when signed out). -/

/-- The three tab panels. -/
inductive Tab
  | basic
  | advanced
  | assessment
  deriving DecidableEq, Repr

/-- The `App` component state relevant to tab selection. -/
structure AppState where
  user : Option String
  activeTab : Tab
  deriving DecidableEq, Repr

/-- The auth effect: whenever `user` is null and the tab is not "basic",
reset the tab to "basic". -/
def authTabEffect (s : AppState) : AppState :=
  if s.user = none ∧ s.activeTab ≠ Tab.basic then { s with activeTab := Tab.basic } else s

/-- Whether a tab button is disabled: advanced and assessment require a
signed-in user, basic never does. -/
def tabDisabled (u : Option String) : Tab → Bool
  | .basic => false
  | .advanced => u.isNone
  | .assessment => u.isNone

/-- A tab button click: ignored when the button is disabled. -/
def clickTab (t : Tab) (s : AppState) : AppState :=
  if tabDisabled s.user t then s else { s with activeTab := t }

/-- A hero highlight click: an auth-requiring target with no signed-in user
only scrolls to the login section, leaving the tab unchanged. -/
def highlightClick (t : Tab) (s : AppState) : AppState :=
  if (t = Tab.advanced ∨ t = Tab.assessment) ∧ s.user = none then s
  else { s with activeTab := t }

/-- The user-driven events of the `App` state machine. -/
inductive AppEvent
  | tabClick (t : Tab)
  | highlight (t : Tab)
  | loginAs (u : String)
  | logoutEv

/-- One transition: the event's handler followed by the auth effect, which
React runs after every state change before the next stable render. -/
def appStep (e : AppEvent) (s : AppState) : AppState :=
  authTabEffect
    (match e with
     | .tabClick t => clickTab t s
     | .highlight t => highlightClick t s
     | .loginAs u => { s with user := some u }
     | .logoutEv => { s with user := none })

/-- The initial `App` state: signed out, basic tab. -/
def initialAppState : AppState :=
  { user := none, activeTab := Tab.basic }

/-- The states the `App` component can reach from start-up. -/
inductive AppReachable : AppState → Prop
  | init : AppReachable initialAppState
  | step (e : AppEvent) {s : AppState} : AppReachable s → AppReachable (appStep e s)

/-! ## Frontend: `AuthContext.login`

Embedded from the unnamed AuthContext source: `login` POSTs to
`/auth/login`; on success it stores the access token in localStorage, sets
the Authorization header and the token state, clears `authError`, then GETs
`/auth/me` and sets `user`.  Any thrown error is caught: `authError` is set
to `error.response?.data?.detail || error.message || "Invalid credentials"`
and the error is rethrown. -/

/-- The browser-visible authentication state touched by `login`. -/
structure AuthState where
  storedToken : Option String
  authHeader : Option String
  user : Option String
  authError : Option String
  deriving DecidableEq, Repr

/-- The parts of an axios error that the message fallback chain reads. -/
structure ApiError where
  detail : Option String
  message : Option String
  deriving DecidableEq, Repr

/-- The `/auth/login` response body. -/
structure LoginSuccess where
  accessToken : String
  deriving DecidableEq, Repr

/-- JavaScript `a || b` on an optional string: a missing, null or empty
value falls through to the fallback. -/
def jsOrElse (v : Option String) (fallback : String) : String :=
  match v with
  | some s => if s == "" then fallback else s
  | none => fallback

/-- The error message chain
`error.response?.data?.detail || error.message || "Invalid credentials"`. -/
def loginErrorMessage (e : ApiError) : String :=
  jsOrElse e.detail (jsOrElse e.message "Invalid credentials")

/-- `setAuthToken`: installs or removes the default Authorization header. -/
def applyAuthToken (token : Option String) (s : AuthState) : AuthState :=
  { s with authHeader := token.map (fun t => "Bearer " ++ t) }

/-- `AuthContext.login`, with the two network calls' outcomes passed in
explicitly.  Returns the final state and the call's own outcome (`.error`
models the rethrow reaching the caller). -/
def login (postLogin : Except ApiError LoginSuccess) (getMe : Except ApiError String)
    (s : AuthState) : AuthState × Except ApiError Unit :=
  match postLogin with
  | .error e => ({ s with authError := some (loginErrorMessage e) }, .error e)
  | .ok d =>
      let s1 := applyAuthToken (some d.accessToken)
        { s with storedToken := some d.accessToken, authError := none }
      match getMe with
      | .ok u => ({ s1 with user := some u }, .ok ())
      | .error e => ({ s1 with authError := some (loginErrorMessage e) }, .error e)

/-! ## Score bounds -/

theorem structuralRaw_nonneg (m : SectionMap) : 0 ≤ structuralRaw m := by
  unfold structuralRaw
  positivity

theorem structuralRaw_le_100 (m : SectionMap) : structuralRaw m ≤ 100 := by
  unfold structuralRaw
  have h : (essentialSections.filter (fun n => sectionPresent m n)).length ≤ 6 := by
    have h6 := List.length_filter_le (fun n => sectionPresent m n) essentialSections
    simpa [essentialSections] using h6
  have hq : ((essentialSections.filter (fun n => sectionPresent m n)).length : ℚ) ≤ 6 := by
    exact_mod_cast h
  rw [div_mul_eq_mul_div, div_le_iff₀ (by norm_num)]
  linarith

theorem sectionQuality_le_100 (t : String) : sectionQuality t ≤ 100 := by
  unfold sectionQuality
  split <;> split <;> omega

theorem qualitySum_le (ts : List String) :
    (ts.map sectionQuality).sum ≤ ts.length * 100 := by
  induction ts with
  | nil => simp
  | cons h t ih =>
      have hh := sectionQuality_le_100 h
      simp only [List.map_cons, List.sum_cons, List.length_cons]
      omega

theorem contentQualityRaw_nonneg (m : SectionMap) : 0 ≤ contentQualityRaw m := by
  unfold contentQualityRaw
  dsimp only
  split
  · norm_num
  · positivity

theorem contentQualityRaw_le_100 (m : SectionMap) : contentQualityRaw m ≤ 100 := by
  unfold contentQualityRaw
  dsimp only
  split
  · norm_num
  · rename_i hne
    have hlen : 0 < (presentSectionTexts m).length := by
      cases hts : presentSectionTexts m with
      | nil => rw [hts] at hne; simp at hne
      | cons a l => simp [hts]
    have hlenq : (0 : ℚ) < ((presentSectionTexts m).length : ℚ) := by exact_mod_cast hlen
    have hsum := qualitySum_le (presentSectionTexts m)
    have hsumq : (((presentSectionTexts m).map sectionQuality).sum : ℚ) ≤
        ((presentSectionTexts m).length : ℚ) * 100 := by exact_mod_cast hsum
    rw [div_le_iff₀ hlenq]
    linarith

theorem citationRaw_nonneg (n : Nat) : 0 ≤ citationRaw n := by
  unfold citationRaw
  have h : (0 : ℚ) ≤ min ((n : ℚ) / 10) 1 := le_min (by positivity) (by norm_num)
  nlinarith

theorem citationRaw_le_100 (n : Nat) : citationRaw n ≤ 100 := by
  unfold citationRaw
  have h : min ((n : ℚ) / 10) 1 ≤ 1 := min_le_right _ _
  have h0 : (0 : ℚ) ≤ min ((n : ℚ) / 10) 1 := le_min (by positivity) (by norm_num)
  nlinarith

theorem missingContentRaw_nonneg (items : List MissingContentItem) :
    0 ≤ missingContentRaw items :=
  le_max_left 0 _

theorem missingContentRaw_le_100 (items : List MissingContentItem) :
    missingContentRaw items ≤ 100 := by
  unfold missingContentRaw
  apply max_le (by norm_num)
  have h : (0 : ℚ) ≤ (missingDeduction items : ℚ) := by positivity
  linarith

/-- C1: for every analysis input and mode, the report's overall
completeness score equals the sum of the four weighted sub-scores
(structural 25%, content-quality 25%, citation-adequacy 15%,
missing-content 35%, with no further renormalization), and the overall
score lies in [0, 100]. -/
theorem claim1_overall_score_sum_and_bounds (table : List TopicRule) (mode : Mode)
    (a : AnalysisRecord) :
    (assess table mode a).overallScore =
        (assess table mode a).scoreBreakdown.structuralWeighted +
          (assess table mode a).scoreBreakdown.contentQualityWeighted +
          (assess table mode a).scoreBreakdown.citationWeighted +
          (assess table mode a).scoreBreakdown.missingContentWeighted ∧
      0 ≤ (assess table mode a).overallScore ∧
      (assess table mode a).overallScore ≤ 100 := by
  unfold assess
  by_cases hempty : sectionMapEmpty a.sections
  · simp [hempty]
  · cases mode with
    | quick =>
        simp only [hempty, Bool.false_eq_true, if_false]
        have hs0 := structuralRaw_nonneg a.sections
        have hs1 := structuralRaw_le_100 a.sections
        have hm0 := missingContentRaw_nonneg (detectMissing (criticalRules table) a.sections)
        have hm1 := missingContentRaw_le_100 (detectMissing (criticalRules table) a.sections)
        refine ⟨by ring_nf, ?_, ?_⟩ <;> · unfold wStruct wMissing; linarith
    | comprehensive =>
        simp only [hempty, Bool.false_eq_true, if_false]
        have hs0 := structuralRaw_nonneg a.sections
        have hs1 := structuralRaw_le_100 a.sections
        have hq0 := contentQualityRaw_nonneg a.sections
        have hq1 := contentQualityRaw_le_100 a.sections
        have hc0 := citationRaw_nonneg a.citations.length
        have hc1 := citationRaw_le_100 a.citations.length
        have hm0 := missingContentRaw_nonneg (detectMissing table a.sections)
        have hm1 := missingContentRaw_le_100 (detectMissing table a.sections)
        refine ⟨by ring_nf, ?_, ?_⟩ <;> · unfold wStruct wQuality wCite wMissing; linarith

/-! ## Missing-content deduction arithmetic -/

theorem countTier_cons (i : MissingContentItem) (t : List MissingContentItem)
    (tier : Importance) :
    countTier (i :: t) tier =
      (if i.importance = tier then 1 else 0) + countTier t tier := by
  unfold countTier
  rw [List.filter_cons]
  by_cases h : i.importance = tier
  · simp [h]
    omega
  · simp [h]

theorem missingDeduction_eq_counts (items : List MissingContentItem) :
    missingDeduction items =
      15 * countTier items .critical + 10 * countTier items .important +
        5 * countTier items .beneficial := by
  induction items with
  | nil => simp [missingDeduction, countTier]
  | cons i t ih =>
      have hd : missingDeduction (i :: t) = penalty i.importance + missingDeduction t := by
        simp [missingDeduction]
      rw [hd, countTier_cons i t .critical, countTier_cons i t .important,
        countTier_cons i t .beneficial]
      cases h : i.importance <;> simp only [h, penalty, reduceCtorEq, if_true,
        if_false, reduceIte] <;> omega

/-- C2: the missing-content sub-score before the 35% weighting equals
`max(0, 100 − 15·Critical − 10·Important − 5·Beneficial)` over the items
detected from the expected-topic table, and no number of detected items
drives it below 0. -/
theorem claim2_missing_content_subscore (table : List TopicRule) (m : SectionMap) :
    missingContentRaw (detectMissing table m) =
        max 0 (100 - 15 * (countTier (detectMissing table m) .critical : ℚ)
          - 10 * (countTier (detectMissing table m) .important : ℚ)
          - 5 * (countTier (detectMissing table m) .beneficial : ℚ)) ∧
      0 ≤ missingContentRaw (detectMissing table m) := by
  constructor
  · unfold missingContentRaw
    rw [missingDeduction_eq_counts]
    rw [max_comm, max_comm 0 _]
    congr 1
    push_cast
    ring
  · exact missingContentRaw_nonneg _

/-- C3: quick mode's Critical-tier missing-content items are a subset of
comprehensive mode's items on the same input, quick mode emits only
Critical-tier items, and it produces no strengths, weaknesses or
recommendations. -/
theorem claim3_quick_subset_of_comprehensive (table : List TopicRule) (a : AnalysisRecord) :
    (∀ i ∈ (assess table .quick a).missingContent, i.importance = .critical) ∧
      (∀ i ∈ (assess table .quick a).missingContent,
        i ∈ (assess table .comprehensive a).missingContent) ∧
      (assess table .quick a).strengths = [] ∧
      (assess table .quick a).weaknesses = [] ∧
      (assess table .quick a).recommendations = [] := by
  unfold assess
  by_cases hempty : sectionMapEmpty a.sections
  · simp only [hempty, if_true]
    refine ⟨?_, ?_, trivial, trivial, trivial⟩
    · intro i hi
      simp only [List.mem_singleton] at hi
      subst hi
      rfl
    · intro i hi
      exact hi
  · simp only [hempty, Bool.false_eq_true, if_false]
    refine ⟨?_, ?_, trivial, trivial, trivial⟩
    · intro i hi
      unfold detectMissing at hi
      unfold criticalRules at hi
      obtain ⟨r, hr, hri⟩ := List.mem_map.mp hi
      obtain ⟨hr1, _⟩ := List.mem_filter.mp hr
      obtain ⟨_, hr3⟩ := List.mem_filter.mp hr1
      subst hri
      simpa [ruleItem] using of_decide_eq_true hr3
    · intro i hi
      unfold detectMissing at hi ⊢
      unfold criticalRules at hi
      obtain ⟨r, hr, hri⟩ := List.mem_map.mp hi
      obtain ⟨hr1, hr2⟩ := List.mem_filter.mp hr
      obtain ⟨hr0, _⟩ := List.mem_filter.mp hr1
      exact List.mem_map.mpr ⟨r, List.mem_filter.mpr ⟨hr0, hr2⟩, hri⟩

/-- C4: the citation-adequacy sub-score before the 15% weighting is
`min(citation_count / 10, 1.0) × 100` — exactly 100 with at least 10
citations, and 10 × citation_count with fewer. -/
theorem claim4_citation_subscore (n : Nat) :
    citationRaw n = min ((n : ℚ) / 10) 1 * 100 ∧
      (10 ≤ n → citationRaw n = 100) ∧
      (n < 10 → citationRaw n = 10 * n) := by
  refine ⟨rfl, ?_, ?_⟩
  · intro h
    unfold citationRaw
    have h1 : (1 : ℚ) ≤ (n : ℚ) / 10 := by
      rw [le_div_iff₀ (by norm_num)]
      have : (10 : ℚ) ≤ (n : ℚ) := by exact_mod_cast h
      linarith
    rw [min_eq_right h1]
    norm_num
  · intro h
    unfold citationRaw
    have h1 : (n : ℚ) / 10 ≤ 1 := by
      rw [div_le_one (by norm_num)]
      exact_mod_cast le_of_lt h
    rw [min_eq_left h1]
    ring

theorem claim4_citation_subscore_witness :
    citationRaw 12 = 100 ∧ citationRaw 3 = 30 := by
  constructor
  · exact (claim4_citation_subscore 12).2.1 (by norm_num)
  · have h := (claim4_citation_subscore 3).2.2 (by norm_num)
    rw [h]
    norm_num

/-- C5: if the section map is entirely empty, the Assessment Engine
returns (does not raise) a report with overall score 0 whose
missing-content list is exactly the single Critical item flagging
extraction failure. -/
theorem claim5_empty_sections_degrade (table : List TopicRule) (mode : Mode)
    (a : AnalysisRecord) (h : sectionMapEmpty a.sections = true) :
    (assess table mode a).overallScore = 0 ∧
      (assess table mode a).missingContent = [extractionFailureItem] ∧
      extractionFailureItem.importance = .critical := by
  refine ⟨?_, ?_, rfl⟩ <;> simp [assess, h]

theorem claim5_empty_sections_degrade_witness :
    (assess [] .quick
        { sections := [], citations := [], researchField := "", paperTitle := "" }).overallScore
        = 0 ∧
      (assess [] .quick
        { sections := [], citations := [], researchField := "", paperTitle := "" }).missingContent
        = [extractionFailureItem] ∧
      extractionFailureItem.importance = .critical :=
  claim5_empty_sections_degrade [] .quick
    { sections := [], citations := [], researchField := "", paperTitle := "" } (by decide)

/-- C6: the full analysis pipeline is a deterministic pure function of the
raw input text — byte-identical raw input yields byte-identical
AssessmentReport output, with no randomness and no external calls. -/
theorem claim6_pipeline_deterministic (mode : Mode) (raw1 raw2 : String)
    (h : raw1 = raw2) :
    assessPipeline mode raw1 = assessPipeline mode raw2 := by
  rw [h]

theorem claim6_pipeline_deterministic_witness :
    assessPipeline .comprehensive "Abstract\nWe study data." =
      assessPipeline .comprehensive "Abstract\nWe study data." :=
  claim6_pipeline_deterministic .comprehensive _ _ rfl

/-- C7: on "Smith (2023) showed X. Later work [1, 2] confirmed this.^3"
the Citation Extractor returns exactly three citations in position order —
an author_year citation with authors=["Smith"] and year="2023", a numbered
citation with reference_numbers=[1,2], and a footnote citation — the
pattern families being tried at priority author_year > numbered > footnote
at each scan position. -/
theorem claim7_citation_extraction_example :
    extractCitations "Smith (2023) showed X. Later work [1, 2] confirmed this.^3" =
      [{ text := "Smith (2023)", citationType := .authorYear, authors := ["Smith"],
         year := some "2023", referenceNumbers := [], resolvedReferences := [],
         position := 0 },
       { text := "[1, 2]", citationType := .numbered, authors := [], year := none,
         referenceNumbers := [1, 2], resolvedReferences := [none, none],
         position := 34 },
       { text := "^3", citationType := .footnote, authors := [], year := none,
         referenceNumbers := [], resolvedReferences := [], position := 56 }] := by
  decide

/-- C8: an unresolved numbered-citation reference yields a placeholder, not
a failure — at every index of the reference-number list at which the
resolved-reference list has no entry, the renderer displays
"Reference N (details not captured)". -/
theorem claim8_unresolved_reference_placeholder (c : Citation) (idx num : Nat)
    (h : c.resolvedReferences.get? idx = none) :
    renderResolvedRef c.resolvedReferences num idx =
      "Reference " ++ toString num ++ " (details not captured)" := by
  unfold renderResolvedRef referencePlaceholder
  rw [h]

theorem claim8_unresolved_reference_placeholder_witness :
    renderResolvedRef
        ({ text := "[4]", citationType := .numbered, authors := [], year := none,
           referenceNumbers := [4], resolvedReferences := [],
           position := 0 } : Citation).resolvedReferences 4 0 =
      "Reference 4 (details not captured)" :=
  claim8_unresolved_reference_placeholder
    { text := "[4]", citationType := .numbered, authors := [], year := none,
      referenceNumbers := [4], resolvedReferences := [], position := 0 } 0 4 rfl

/-! ## App tab-state invariant -/

theorem authTabEffect_basic_when_signed_out (s : AppState)
    (hu : (authTabEffect s).user = none) :
    (authTabEffect s).activeTab = Tab.basic := by
  by_cases hcond : s.user = none ∧ s.activeTab ≠ Tab.basic
  · simp [authTabEffect, hcond]
  · simp only [authTabEffect, hcond, if_false] at hu ⊢
    rcases Classical.em (s.activeTab = Tab.basic) with hb | hb
    · exact hb
    · exact absurd ⟨hu, hb⟩ hcond

/-- C9: in every reachable state of the `App` component, a signed-out
session shows the basic summarizer tab — the auth effect resets any other
tab whenever `user` is null, and the advanced and assessment tab buttons
are disabled while signed out, so those panels are never the active panel
without a signed-in user. -/
theorem claim9_signed_out_shows_basic (s : AppState) (h : AppReachable s)
    (hu : s.user = none) : s.activeTab = Tab.basic := by
  induction h with
  | init => rfl
  | step e hs ih =>
      exact authTabEffect_basic_when_signed_out _ hu

theorem claim9_signed_out_shows_basic_witness :
    initialAppState.user = none ∧ initialAppState.activeTab = Tab.basic :=
  ⟨rfl, claim9_signed_out_shows_basic initialAppState AppReachable.init rfl⟩

/-- C10: if the POST to `/auth/login` throws, `login` leaves the stored
access token, the Authorization header and the user state unchanged, sets
`authError` to a non-null message, and rethrows the error to its caller. -/
theorem claim10_login_failure_preserves_state (e : ApiError)
    (getMe : Except ApiError String) (s : AuthState) :
    (login (.error e) getMe s).1.storedToken = s.storedToken ∧
      (login (.error e) getMe s).1.authHeader = s.authHeader ∧
      (login (.error e) getMe s).1.user = s.user ∧
      (login (.error e) getMe s).1.authError = some (loginErrorMessage e) ∧
      (login (.error e) getMe s).2 = .error e :=
  ⟨rfl, rfl, rfl, rfl, rfl⟩

end Capstone
